import Mathlib

/-!
Verification of the session-integrity and time-entry consistency subsystem of
the Logger repository (FastAPI backend under `backend/app`).

The Python sources are shallowly embedded:
* timestamps are integers (seconds), `datetime` subtraction becomes integer
  subtraction;
* SQLAlchemy rows become Lean structures, the table a `List`;
* nullable columns and `dict.get` become `Option`;
* `raise HTTPException` becomes `Except.error` with a constructor per distinct
  error condition (an uncaught Python `TypeError`/`ValueError`, surfaced by the
  framework as HTTP 500, is `internalError`);
* bcrypt (`passlib` `CryptContext`) is modelled as a perfect hash: `Digest`
  wraps the hashed value and `pwd_context_verify` succeeds exactly on the value
  that was hashed, which is the functional contract the code relies on;
* Python `str(int(s) + 1)` (the token-version bump in `revoke_all`) is embedded
  by an explicit decimal printer `natDec` / parser `pyInt?` defined below.

The file lists all definitions first, then all theorems.
-/

deriving instance DecidableEq for Except

/-- Decimal digit to character, as Python `str` prints it (`0x30` is `'0'`). -/
def digitChar (d : Nat) : Char := Char.ofNat (48 + d % 10)

/-- Character to decimal digit, as Python `int` reads one; `none` on a
non-digit (Python raises `ValueError`). -/
def digitVal? (c : Char) : Option Nat :=
  if 48 ≤ c.toNat ∧ c.toNat ≤ 57 then some (c.toNat - 48) else none

/-- Fuel-indexed most-significant-first decimal digits of a natural number;
fuel `n + 1` suffices for input `n`. -/
def decCharsF : Nat → Nat → List Char
  | 0, _ => []
  | f + 1, n =>
    if n < 10 then [digitChar n]
    else decCharsF f (n / 10) ++ [digitChar (n % 10)]

/-- Python `str` on a non-negative integer. -/
def natDec (n : Nat) : String := ⟨decCharsF (n + 1) n⟩

/-- Python `str` on an arbitrary integer. -/
def pyIntToStr : Int → String
  | Int.ofNat n => natDec n
  | Int.negSucc n => "-" ++ natDec (n + 1)

/-- One step of Python `int`'s digit accumulation. -/
def pyDigitStep (acc : Option Nat) (c : Char) : Option Nat :=
  acc.bind fun a => (digitVal? c).map fun d => a * 10 + d

/-- Python `int` on a list of characters: all must be digits. -/
def pyParseNat? (cs : List Char) : Option Nat :=
  cs.foldl pyDigitStep (some 0)

/-- Python `int(s)` for a string: optional leading minus then digits, `none`
models the `ValueError` raised otherwise. (Whitespace stripping and underscore
separators, which Python also accepts, never occur in this system's stored
version strings and are not modelled.) -/
def pyInt? (s : String) : Option Int :=
  match s.data with
  | [] => none
  | c :: cs =>
    if c = '-' then
      match cs with
      | [] => none
      | _ => (pyParseNat? cs).map fun n => -(n : Int)
    else (pyParseNat? (c :: cs)).map fun n => (n : Int)

/-!
## Auth subsystem (`app/core/security.py`, `app/routes/auth.py`)

Tokens are embedded as their decoded claim dictionaries: `decode_token`
verifies signature and expiry cryptographically, which a shallow embedding
takes as given for the tokens the claims quantify over (unexpired tokens the
server itself signed). The `jti` generated by `uuid.uuid4()` is embedded as a
`Nat` drawn from a caller-supplied fresh value; uuid uniqueness becomes
explicit freshness hypotheses.
-/

/-- Perfect-hash model of `passlib`'s bcrypt `CryptContext.hash`: the digest
is an opaque wrapper of the hashed value and `pwd_context_verify` succeeds
exactly on the hashed value, the functional contract the routes rely on. -/
structure Digest (α : Type) where
  hashed : α
deriving DecidableEq, Repr

def pwd_context_hash {α : Type} (x : α) : Digest α := ⟨x⟩

def pwd_context_verify {α : Type} [DecidableEq α] (x : α) (d : Digest α) : Bool :=
  x = d.hashed

/-- Decoded JWT claim dictionary (`app/core/security.py`). `ver` and `jti` are
`Option` because `payload.get` tolerates their absence. `exp`/`iat` are
handled by `decode_token`'s signature/expiry verification and carry no further
information for the embedded checks. -/
structure Claims where
  sub : String
  typ : String
  jti : Option Nat
  ver : Option String
deriving DecidableEq, Repr

/-- The `users` row fields this subsystem reads and writes
(`app/models/user.py`). `token_version` is `nullable=False` with server
default `"0"`, but the routes defend against null, so it is `Option`. -/
structure UserRec where
  id : String
  password_hash : Digest String
  is_active : Bool
  token_version : Option String
  refresh_token_hash : Option (Digest Claims)
  refresh_jti : Option Nat
deriving DecidableEq, Repr

/-- Error taxonomy of the auth routes, one constructor per distinct
`HTTPException` detail; `internalError` is an uncaught Python exception
(HTTP 500). -/
inductive AuthErr
  | missingToken
  | wrongTokenType
  | userNotFoundOrDisabled
  | versionRevoked
  | refreshInvalidated
  | refreshReused
  | invalidCredentials
  | emailTaken
  | csrfMismatch
  | internalError
deriving DecidableEq, Repr

/-- Python `str(x or "0")` on a nullable string: `None` and `""` are falsy and
collapse to `"0"`. Used on `user.token_version` in the routes. -/
def effVer : Option String → String
  | none => "0"
  | some s => if s = "" then "0" else s

/-- Python `str(payload.get("ver", "0"))`: the default applies only when the
key is absent; a present value (even `""`) is kept. -/
def claimVer : Option String → String
  | none => "0"
  | some s => s

/-- Python truthiness of an optional string (`not x` in the CSRF guard). -/
def truthy : Option String → Bool
  | none => false
  | some s => s ≠ ""

/-- `create_access_token` (`app/core/security.py:74`): claims carry the
subject, type `"access"` and the version snapshot. -/
def create_access_token (sub : String) (token_version : String) : Claims :=
  { sub := sub, typ := "access", jti := none, ver := some token_version }

/-- `create_refresh_token` (`app/core/security.py:86`): additionally carries a
fresh `jti`; returns the token together with the jti, as the Python does. -/
def create_refresh_token (sub : String) (token_version : String) (freshJti : Nat) :
    Claims × Nat :=
  ({ sub := sub, typ := "refresh", jti := some freshJti, ver := some token_version },
   freshJti)

/-- `require_csrf` (`app/core/security.py:155`): on state-changing methods the
header- and cookie-carried tokens must be truthy and equal, else 403. -/
def require_csrf (method : String) (header cookie : Option String) :
    Except AuthErr Unit :=
  if method = "POST" ∨ method = "PUT" ∨ method = "PATCH" ∨ method = "DELETE" then
    if !truthy header || !truthy cookie || header ≠ cookie then
      .error .csrfMismatch
    else .ok ()
  else .ok ()

/-- `_verify_and_get_user_from_access` (`app/routes/auth.py:51`). `found` is
the result of the `_user_by_id db (payload.get "sub")` lookup. -/
def verify_and_get_user_from_access (cookie : Option Claims)
    (found : Option UserRec) : Except AuthErr UserRec :=
  match cookie with
  | none => .error .missingToken
  | some payload =>
    if payload.typ ≠ "access" then .error .wrongTokenType
    else
      match found with
      | none => .error .userNotFoundOrDisabled
      | some user =>
        if !user.is_active then .error .userNotFoundOrDisabled
        else if claimVer payload.ver ≠ effVer user.token_version then
          .error .versionRevoked
        else .ok user

/-- `register` (`app/routes/auth.py:71`): 409 when the email is taken, else
create the user (server defaults: active, token_version `"0"`, no refresh
state), then mint access+refresh and persist the refresh hash and jti.
Returns the stored user and the two tokens set as cookies. -/
def register (foundByEmail : Option UserRec) (password : String)
    (newId : String) (freshJti : Nat) :
    Except AuthErr (UserRec × Claims × Claims) :=
  match foundByEmail with
  | some _ => .error .emailTaken
  | none =>
    let user : UserRec :=
      { id := newId, password_hash := pwd_context_hash password,
        is_active := true, token_version := some "0",
        refresh_token_hash := none, refresh_jti := none }
    let access := create_access_token user.id (effVer user.token_version)
    let rj := create_refresh_token user.id (effVer user.token_version) freshJti
    .ok ({ user with refresh_token_hash := some (pwd_context_hash rj.1),
                     refresh_jti := some rj.2 }, access, rj.1)

/-- `login` (`app/routes/auth.py:93`): 401 when the user is absent or the
password fails bcrypt verification (the `is_active` flag is not consulted);
else mint access+refresh and unconditionally overwrite the stored refresh
hash and jti. -/
def login (foundByEmail : Option UserRec) (password : String) (freshJti : Nat) :
    Except AuthErr (UserRec × Claims × Claims) :=
  match foundByEmail with
  | none => .error .invalidCredentials
  | some user =>
    if !pwd_context_verify password user.password_hash then
      .error .invalidCredentials
    else
      let access := create_access_token user.id (effVer user.token_version)
      let rj := create_refresh_token user.id (effVer user.token_version) freshJti
      .ok ({ user with refresh_token_hash := some (pwd_context_hash rj.1),
                       refresh_jti := some rj.2 }, access, rj.1)

/-- `refresh` (`app/routes/auth.py:110`): missing cookie, wrong type, missing
user or cleared refresh state, version mismatch, then jti/hash mismatch, in
that order; on success rotate both tokens and persist the new hash and jti. -/
def refresh (cookie : Option Claims) (found : Option UserRec) (freshJti : Nat) :
    Except AuthErr (UserRec × Claims × Claims) :=
  match cookie with
  | none => .error .missingToken
  | some payload =>
    if payload.typ ≠ "refresh" then .error .wrongTokenType
    else
      match found with
      | none => .error .refreshInvalidated
      | some user =>
        match user.refresh_token_hash, user.refresh_jti with
        | some storedHash, some storedJti =>
          if claimVer payload.ver ≠ effVer user.token_version then
            .error .versionRevoked
          else if payload.jti ≠ some storedJti
              || !pwd_context_verify payload storedHash then
            .error .refreshReused
          else
            let access := create_access_token user.id (effVer user.token_version)
            let rj := create_refresh_token user.id (effVer user.token_version) freshJti
            .ok ({ user with refresh_token_hash := some (pwd_context_hash rj.1),
                             refresh_jti := some rj.2 }, access, rj.1)
        | _, _ => .error .refreshInvalidated

/-- `revoke_all` (`app/routes/auth.py:142`): authenticate via the access
cookie, bump `token_version` by string-encoded integer arithmetic
(`str(int(str(v or "0")) + 1)`; an unparsable stored version raises
`ValueError`, HTTP 500), and clear the stored refresh hash and jti. -/
def revoke_all (cookie : Option Claims) (found : Option UserRec) :
    Except AuthErr UserRec :=
  match verify_and_get_user_from_access cookie found with
  | .error e => .error e
  | .ok user =>
    match pyInt? (effVer user.token_version) with
    | none => .error .internalError
    | some k =>
      .ok { user with token_version := some (pyIntToStr (k + 1)),
                      refresh_token_hash := none, refresh_jti := none }

/-- `logout` (`app/routes/auth.py:156`): CSRF-guarded (the route method is
POST); clears cookies, and best-effort clears the stored refresh state when
the access token still resolves (failures are swallowed). Returns the updated
user when one was written. -/
def logout (cookie : Option Claims) (found : Option UserRec)
    (csrfHeader csrfCookie : Option String) : Except AuthErr (Option UserRec) :=
  match require_csrf "POST" csrfHeader csrfCookie with
  | .error e => .error e
  | .ok _ =>
    match verify_and_get_user_from_access cookie found with
    | .error _ => .ok none
    | .ok user =>
      .ok (some { user with refresh_token_hash := none, refresh_jti := none })

/-!
## Time-entry subsystem (`app/crud/time_entries.py`, `app/routes/time_entries.py`)

Timestamps are integers (seconds since epoch); `datetime` subtraction and
comparison become integer operations. A `datetime` compared with or subtracted
from `None` raises `TypeError` in Python, which the embedding surfaces as
`TimeErr.internalError` (HTTP 500).
-/

/-- A `time_entries` row (`app/models/time_entry.py`): `end_utc` nullable
(null means running), `start_utc`, `project_code`, `activity`, `seconds` not
nullable, `notes` nullable. -/
structure Entry where
  id : String
  user_id : String
  project_code : String
  activity : String
  start_utc : Int
  end_utc : Option Int
  seconds : Int
  notes : Option String
deriving DecidableEq, Repr

/-- The derived `running` property of `TimeEntry`
(`app/models/time_entry.py:63`): true when there is a start but no end. -/
def Entry.running (e : Entry) : Bool := e.end_utc.isNone

/-- Error taxonomy of the time-entry routes; `internalError` is an uncaught
Python exception (`TypeError` from `_compute_seconds` on a null operand, or an
integrity error at commit), surfaced as HTTP 500. -/
inductive TimeErr
  | invalidInterval
  | runningConflict
  | overlapConflict
  | notFound
  | forbidden
  | internalError
deriving DecidableEq, Repr

/-- `TimeEntryCreate` (`app/schemas/time_entry.py`): `end_utc` and `notes`
optional, the rest required. `user_id` is overwritten by the route from the
authenticated user, so it is not part of the embedded payload. -/
structure TimeEntryCreate where
  project_code : String
  activity : String
  start_utc : Int
  end_utc : Option Int
  notes : Option String
deriving DecidableEq, Repr

/-- `TimeEntryUpdate` (`app/schemas/time_entry.py`) under Pydantic
`exclude_unset` semantics: the outer `Option` is presence in the patch, the
inner `Option` an explicit null. -/
structure TimeEntryUpdate where
  project_code : Option (Option String)
  activity : Option (Option String)
  start_utc : Option (Option Int)
  end_utc : Option (Option Int)
  notes : Option (Option String)
deriving DecidableEq, Repr

/-- `_compute_seconds` (`app/crud/time_entries.py:59`) on non-null operands:
`max(0, int((end - start).total_seconds()))`. -/
def compute_seconds (start_utc end_utc : Int) : Int :=
  max 0 (end_utc - start_utc)

/-- `_compute_seconds` as actually invoked, where either operand may be the
Python `None`: subtraction then raises `TypeError`, modelled as `none`. -/
def compute_seconds? : Option Int → Option Int → Option Int
  | some s, some e => some (compute_seconds s e)
  | _, _ => none

/-- `has_overlap` (`app/crud/time_entries.py:64`): any row of the user with
`end_utc > start AND start_utc < end` (SQL three-valued logic drops null-end
rows), plus the `id != exclude_id` filter — which is only added when
`exclude_id` is truthy (`if exclude_id:`), so an empty-string `exclude_id`
adds no filter. -/
def has_overlap (db : List Entry) (user_id : String) (start_utc end_utc : Int)
    (exclude_id : Option String) : Bool :=
  db.any fun t =>
    t.user_id = user_id
    && (match t.end_utc with
        | none => false
        | some te => start_utc < te)
    && t.start_utc < end_utc
    && (match exclude_id with
        | none => true
        | some x => if x = "" then true else t.id ≠ x)

/-- Modelled from the spec: `get_running_entry` is imported by
`app/routes/time_entries.py` from `app.crud.time_entries` but its definition
is absent from the repository sources. The spec describes the check it backs:
`has_running(user, exclude_id?)` is "true if any other entry for the user
currently has a null end"; the route expects the running entry or `None`. -/
def get_running_entry (db : List Entry) (user_id : String)
    (exclude_id : Option String) : Option Entry :=
  db.find? fun t =>
    t.user_id = user_id
    && t.end_utc.isNone
    && (match exclude_id with
        | none => true
        | some x => t.id ≠ x)

/-- `create_entry` (`app/crud/time_entries.py:84`): materializes `seconds`
via `_compute_seconds(payload.start_utc, payload.end_utc)` — which raises
`TypeError` when `end_utc` is null — then inserts the row. -/
def create_entry (db : List Entry) (user_id : String) (payload : TimeEntryCreate)
    (newId : String) : Except TimeErr (Entry × List Entry) :=
  match compute_seconds? (some payload.start_utc) payload.end_utc with
  | none => .error .internalError
  | some secs =>
    let obj : Entry :=
      { id := newId, user_id := user_id, project_code := payload.project_code,
        activity := payload.activity, start_utc := payload.start_utc,
        end_utc := payload.end_utc, seconds := secs, notes := payload.notes }
    .ok (obj, db ++ [obj])

/-- `api_create_entry` (`app/routes/time_entries.py:80`) after the
authentication, CSRF and ownership-forcing steps: interval validation (only
when an end is given), single-running-entry rule, overlap rule (closed
intervals only), best-effort project upsert (no effect on entries), then
`create_entry`. -/
def api_create_entry (db : List Entry) (user_id : String)
    (payload : TimeEntryCreate) (newId : String) :
    Except TimeErr (Entry × List Entry) :=
  if h : payload.end_utc.isSome then
    if payload.end_utc.get h ≤ payload.start_utc then .error .invalidInterval
    else if has_overlap db user_id payload.start_utc (payload.end_utc.get h) none then
      .error .overlapConflict
    else create_entry db user_id payload newId
  else
    match get_running_entry db user_id none with
    | some _ => .error .runningConflict
    | none => create_entry db user_id payload newId

/-- `update_entry` (`app/crud/time_entries.py:103`): apply every field present
in the patch with `setattr`, recompute `seconds` when `start_utc` or `end_utc`
was touched (`TypeError` when an operand is now null), then commit — which
fails with an integrity error when a non-nullable column (`project_code`,
`activity`, `start_utc`) was set to null. -/
def update_entry (db : List Entry) (entry : Entry) (payload : TimeEntryUpdate) :
    Except TimeErr (Entry × List Entry) :=
  let ns : Option Int := (payload.start_utc).getD (some entry.start_utc)
  let ne : Option Int := (payload.end_utc).getD entry.end_utc
  let npc : Option String := (payload.project_code).getD (some entry.project_code)
  let nact : Option String := (payload.activity).getD (some entry.activity)
  let nnotes : Option String := (payload.notes).getD entry.notes
  let touched : Bool := (payload.start_utc).isSome || (payload.end_utc).isSome
  let nsecs : Option Int :=
    if touched then compute_seconds? ns ne else some entry.seconds
  match nsecs, ns, npc, nact with
  | some secs, some s, some pc, some act =>
    let e2 : Entry :=
      { entry with start_utc := s, end_utc := ne, project_code := pc,
                   activity := act, notes := nnotes, seconds := secs }
    .ok (e2, db.map fun t => if t.id = entry.id then e2 else t)
  | none, _, _, _ => .error .internalError
  | _, none, _, _ => .error .internalError
  | _, _, none, _ => .error .internalError
  | _, _, _, none => .error .internalError

/-- `api_update_entry` (`app/routes/time_entries.py:137`) after the lookup,
CSRF and ownership checks: recompute the effective window with
only-if-present semantics, validate the interval (`new_end <= new_start`
raises `TypeError` when `new_start` is the Python `None`), enforce the
single-running-entry rule when the patch leaves the entry running, the
overlap rule when it leaves it closed, then `update_entry`. -/
def api_update_entry (db : List Entry) (entry : Entry)
    (payload : TimeEntryUpdate) : Except TimeErr (Entry × List Entry) :=
  let newStart : Option Int := (payload.start_utc).getD (some entry.start_utc)
  let newEnd : Option Int := (payload.end_utc).getD entry.end_utc
  match newEnd with
  | some ne =>
    match newStart with
    | none => .error .internalError
    | some ns =>
      if ne ≤ ns then .error .invalidInterval
      else if has_overlap db entry.user_id ns ne (some entry.id) then
        .error .overlapConflict
      else update_entry db entry payload
  | none =>
    match get_running_entry db entry.user_id (some entry.id) with
    | some _ => .error .runningConflict
    | none => update_entry db entry payload

/-!
## Per-user auth trace

Successful user-mutating auth operations, as a step relation on the stored
user record; failed requests raise before any write and leave the record
unchanged. `register` creates the record rather than stepping it.
-/

inductive AuthStep : UserRec → UserRec → Prop
  | ofLogin {u u' : UserRec} (password : String) (freshJti : Nat) (a r : Claims)
      (h : login (some u) password freshJti = .ok (u', a, r)) : AuthStep u u'
  | ofRefresh {u u' : UserRec} (cookie : Option Claims) (freshJti : Nat)
      (a r : Claims)
      (h : refresh cookie (some u) freshJti = .ok (u', a, r)) : AuthStep u u'
  | ofRevokeAll {u u' : UserRec} (cookie : Option Claims)
      (h : revoke_all cookie (some u) = .ok u') : AuthStep u u'
  | ofLogout {u u' : UserRec} (cookie : Option Claims)
      (csrfHeader csrfCookie : Option String)
      (h : logout cookie (some u) csrfHeader csrfCookie = .ok (some u')) :
      AuthStep u u'

/-- Zero or more successful auth operations on the user's record. -/
def AuthReach : UserRec → UserRec → Prop := Relation.ReflTransGen AuthStep

/-!
## Helper definitions and concrete records used by the claim theorems
-/

/-- The refresh-rotation write shared by `register`, `login` and `refresh`:
overwrite the stored refresh hash and jti with those of a freshly minted
refresh token. -/
def rotated (u : UserRec) (freshJti : Nat) : UserRec :=
  { u with
    refresh_token_hash :=
      some (pwd_context_hash
        (create_refresh_token u.id (effVer u.token_version) freshJti).1),
    refresh_jti := some freshJti }

/-- The invariant of claim C8: stored refresh hash and jti both set or both
null. -/
def refreshStatePaired (u : UserRec) : Bool :=
  u.refresh_token_hash.isSome == u.refresh_jti.isSome

def rC1 : Claims := { sub := "u1", typ := "refresh", jti := some 0, ver := some "0" }

def aC1 : Claims := { sub := "u1", typ := "access", jti := none, ver := some "0" }

def uC1 : UserRec :=
  { id := "u1", password_hash := pwd_context_hash "pw", is_active := true,
    token_version := some "0",
    refresh_token_hash := some (pwd_context_hash rC1), refresh_jti := some 0 }

def uC1post : UserRec :=
  { uC1 with token_version := some "1",
             refresh_token_hash := none, refresh_jti := none }

def uC4inactive : UserRec :=
  { id := "u2", password_hash := pwd_context_hash "pw", is_active := false,
    token_version := some "0", refresh_token_hash := none, refresh_jti := none }

def uC10 (tv : Option String) : UserRec :=
  { id := "u3", password_hash := pwd_context_hash "pw", is_active := true,
    token_version := tv, refresh_token_hash := none, refresh_jti := none }

def tC10access : Claims :=
  { sub := "u3", typ := "access", jti := none, ver := none }

def tC10refresh : Claims :=
  { sub := "u3", typ := "refresh", jti := some 4, ver := none }

def uC10refresh (tv : Option String) : UserRec :=
  { uC10 tv with refresh_token_hash := some (pwd_context_hash tC10refresh),
                 refresh_jti := some 4 }

/-- The overlap predicate with the exclusion rule as claim C6 words it, for
comparison with the code's `has_overlap`: an entry whose identifier equals
`exclude_id` is always excluded, with no special case for the empty string. -/
def has_overlap_claimed (db : List Entry) (user_id : String)
    (start_utc end_utc : Int) (exclude_id : Option String) : Bool :=
  db.any fun t =>
    t.user_id = user_id
    && (match t.end_utc with
        | none => false
        | some te => start_utc < te)
    && t.start_utc < end_utc
    && (match exclude_id with
        | none => true
        | some x => t.id ≠ x)

def entryA : Entry :=
  { id := "a1", user_id := "u1", project_code := "p", activity := "a",
    start_utc := 600, end_utc := some 660, seconds := 60, notes := none }

def entryEmptyId : Entry :=
  { id := "", user_id := "u1", project_code := "p", activity := "a",
    start_utc := 0, end_utc := some 10, seconds := 10, notes := none }

def runningSameUser : Entry :=
  { id := "r1", user_id := "u1", project_code := "p", activity := "a",
    start_utc := 0, end_utc := none, seconds := 0, notes := none }

def runningOtherUser : Entry :=
  { id := "r2", user_id := "u2", project_code := "p", activity := "a",
    start_utc := 0, end_utc := none, seconds := 0, notes := none }

def createRunningPayload : TimeEntryCreate :=
  { project_code := "p", activity := "a", start_utc := 50, end_utc := none,
    notes := none }

def createClosedPayload : TimeEntryCreate :=
  { project_code := "p", activity := "a", start_utc := 100,
    end_utc := some 160, notes := none }

def closedEntryC7 : Entry :=
  { id := "c1", user_id := "u1", project_code := "p", activity := "a",
    start_utc := 0, end_utc := some 100, seconds := 100, notes := none }

def runningEntryC7 : Entry :=
  { id := "g1", user_id := "u1", project_code := "p", activity := "a",
    start_utc := 0, end_utc := none, seconds := 0, notes := none }

def patchNotesOnly : TimeEntryUpdate :=
  { project_code := none, activity := none, start_utc := none,
    end_utc := none, notes := some (some "n") }

def patchStopTimer : TimeEntryUpdate :=
  { project_code := none, activity := none, start_utc := none,
    end_utc := some (some 50), notes := none }

def patchNullEnd : TimeEntryUpdate :=
  { project_code := none, activity := none, start_utc := none,
    end_utc := some none, notes := none }

/-!
## Theorems: printer/parser round trip
-/

theorem digitVal?_digitChar {d : Nat} (h : d < 10) :
    digitVal? (digitChar d) = some d := by
  interval_cases d <;> decide

theorem digitChar_ne_minus (d : Nat) : digitChar d ≠ '-' := by
  unfold digitChar
  obtain ⟨r, hrlt, hreq⟩ : ∃ r, r < 10 ∧ d % 10 = r :=
    ⟨d % 10, Nat.mod_lt _ (by omega), rfl⟩
  rw [hreq]
  interval_cases r <;> decide

theorem decCharsF_ne_nil {f n : Nat} (h : n < f) : decCharsF f n ≠ [] := by
  match f with
  | 0 => omega
  | f + 1 =>
    unfold decCharsF
    split
    · simp
    · simp

theorem decCharsF_digits {f : Nat} : ∀ {n : Nat}, n < f →
    ∀ c ∈ decCharsF f n, ∃ d, d < 10 ∧ c = digitChar d := by
  induction f with
  | zero => omega
  | succ f ih =>
    intro n hn c hc
    unfold decCharsF at hc
    split at hc
    · rw [List.mem_singleton] at hc
      exact ⟨n, by omega, hc⟩
    · rename_i h10
      rcases List.mem_append.1 hc with h | h
      · exact ih (by omega) c h
      · rw [List.mem_singleton] at h
        exact ⟨n % 10, Nat.mod_lt _ (by omega), h⟩

theorem pyDigitStep_foldl (cs : List Char) :
    List.foldl pyDigitStep none cs = none := by
  induction cs with
  | nil => rfl
  | cons c cs ih => simpa [pyDigitStep] using ih

theorem parse_decCharsF {f : Nat} : ∀ {n : Nat}, n < f →
    ∃ p : Nat, ∀ a : Nat,
      List.foldl pyDigitStep (some a) (decCharsF f n) = some (a * p + n) := by
  induction f with
  | zero => omega
  | succ f ih =>
    intro n hn
    unfold decCharsF
    split
    · rename_i h10
      exact ⟨10, fun a => by simp [pyDigitStep, digitVal?_digitChar h10]⟩
    · rename_i h10
      have hlt : n / 10 < f := by
        have h1 : n / 10 < n := Nat.div_lt_self (by omega) (by omega)
        omega
      obtain ⟨p1, hp1⟩ := ih hlt
      refine ⟨p1 * 10, fun a => ?_⟩
      rw [List.foldl_append, hp1 a]
      have hd : digitVal? (digitChar (n % 10)) = some (n % 10) :=
        digitVal?_digitChar (Nat.mod_lt _ (by omega))
      simp only [List.foldl, pyDigitStep, Option.bind, hd, Option.map]
      congr 1
      ring_nf
      omega

/-- Round trip: Python `int(str(n))` returns `n` for a natural number. -/
theorem pyInt?_natDec (n : Nat) : pyInt? (natDec n) = some (n : Int) := by
  have hne : decCharsF (n + 1) n ≠ [] := decCharsF_ne_nil (by omega)
  have hparse : pyParseNat? (decCharsF (n + 1) n) = some n := by
    obtain ⟨p, hp⟩ := parse_decCharsF (f := n + 1) (n := n) (by omega)
    simpa [pyParseNat?] using hp 0
  unfold pyInt? natDec
  simp only [String.data]
  match hm : decCharsF (n + 1) n with
  | [] => exact absurd hm hne
  | c :: cs =>
    have hcdig : ∃ d, d < 10 ∧ c = digitChar d :=
      decCharsF_digits (f := n + 1) (by omega) c (hm ▸ List.mem_cons_self c cs)
    have hcne : ¬ c = '-' := by
      rcases hcdig with ⟨d, _, rfl⟩
      exact digitChar_ne_minus d
    rw [hm] at hparse
    simp [hcne, hparse]

/-- The decimal printer is injective. -/
theorem natDec_injective {a b : Nat} (h : natDec a = natDec b) : a = b := by
  have ha := pyInt?_natDec a
  have hb := pyInt?_natDec b
  rw [h] at ha
  rw [ha] at hb
  exact_mod_cast Option.some.inj hb

theorem natDec_ne_empty (n : Nat) : natDec n ≠ "" := by
  have hne : decCharsF (n + 1) n ≠ [] := decCharsF_ne_nil (by omega)
  unfold natDec
  intro h
  exact hne (congrArg String.data h)

/-!
## Theorems: shapes of successful auth operations, version monotonicity
-/

theorem verify_access_ok_eq {cookie : Option Claims} {u v : UserRec}
    (h : verify_and_get_user_from_access cookie (some u) = .ok v) : v = u := by
  unfold verify_and_get_user_from_access at h
  match cookie with
  | none => exact absurd h (by simp)
  | some payload =>
    simp only at h
    split at h
    · exact absurd h (by simp)
    · split at h
      · exact absurd h (by simp)
      · split at h
        · exact absurd h (by simp)
        · exact (Except.ok.inj h).symm

theorem revoke_all_ok_shape {ck : Option Claims} {u u' : UserRec} {k : Nat}
    (h : revoke_all ck (some u) = .ok u')
    (hv : u.token_version = some (natDec k)) :
    u' = { u with token_version := some (natDec (k + 1)),
                  refresh_token_hash := none, refresh_jti := none } := by
  have heff : effVer u.token_version = natDec k := by
    rw [hv]; unfold effVer
    simp [natDec_ne_empty k]
  unfold revoke_all at h
  split at h
  · exact absurd h (by simp)
  · rename_i user hm
    have hvu : user = u := verify_access_ok_eq hm
    subst hvu
    split at h
    · exact absurd h (by simp)
    · rename_i k2 hk2
      rw [heff, pyInt?_natDec k] at hk2
      have hk2k : k2 = (k : Int) := (Option.some.inj hk2).symm
      subst hk2k
      have hstr : pyIntToStr ((k : Int) + 1) = natDec (k + 1) := by
        have hc : ((k : Int) + 1) = Int.ofNat (k + 1) := by
          simp [Int.ofNat_succ]
        rw [hc]
        rfl
      rw [hstr] at h
      exact (Except.ok.inj h).symm

theorem login_ok_shape {fo : Option UserRec} {pw : String} {j : Nat}
    {u' : UserRec} {a r : Claims}
    (h : login fo pw j = .ok (u', a, r)) :
    ∃ u, fo = some u ∧
      u' = { u with
        refresh_token_hash :=
          some (pwd_context_hash (create_refresh_token u.id (effVer u.token_version) j).1),
        refresh_jti := some j } := by
  match fo with
  | none => exact absurd h (by simp [login])
  | some u =>
    refine ⟨u, rfl, ?_⟩
    unfold login at h
    simp only at h
    split at h
    · exact absurd h (by simp)
    · exact (congrArg Prod.fst (Except.ok.inj h)).symm

theorem refresh_ok_shape {ck : Option Claims} {fo : Option UserRec} {j : Nat}
    {u' : UserRec} {a r : Claims}
    (h : refresh ck fo j = .ok (u', a, r)) :
    ∃ u, fo = some u ∧
      u' = { u with
        refresh_token_hash :=
          some (pwd_context_hash (create_refresh_token u.id (effVer u.token_version) j).1),
        refresh_jti := some j } := by
  match ck with
  | none => exact absurd h (by simp [refresh])
  | some payload =>
    unfold refresh at h
    simp only at h
    split at h
    · exact absurd h (by simp)
    · match fo with
      | none => exact absurd h (by simp)
      | some u =>
        refine ⟨u, rfl, ?_⟩
        simp only at h
        split at h
        · split at h
          · exact absurd h (by simp)
          · split at h
            · exact absurd h (by simp)
            · exact (congrArg Prod.fst (Except.ok.inj h)).symm
        · exact absurd h (by simp)

theorem logout_ok_some_shape {ck : Option Claims} {fo : Option UserRec}
    {h1 h2 : Option String} {u' : UserRec}
    (h : logout ck fo h1 h2 = .ok (some u')) :
    ∃ u, verify_and_get_user_from_access ck fo = .ok u ∧
      u' = { u with refresh_token_hash := none, refresh_jti := none } := by
  unfold logout at h
  split at h
  · exact absurd h (by simp)
  · split at h
    · exact absurd h (by simp)
    · rename_i user hm
      exact ⟨user, hm, (Option.some.inj (Except.ok.inj h)).symm⟩

/-- A single successful operation keeps the token version a decimal-printed
natural and never decreases it. -/
theorem authStep_version {u u' : UserRec} (h : AuthStep u u') {k : Nat}
    (hv : u.token_version = some (natDec k)) :
    ∃ k', k ≤ k' ∧ u'.token_version = some (natDec k') := by
  cases h with
  | ofLogin pw j a r h =>
    obtain ⟨v, hv2, hshape⟩ := login_ok_shape h
    have hvu : v = u := (Option.some.inj hv2).symm
    subst hvu
    exact ⟨k, le_refl k, by rw [hshape]; exact hv⟩
  | ofRefresh ck j a r h =>
    obtain ⟨v, hv2, hshape⟩ := refresh_ok_shape h
    have hvu : v = u := (Option.some.inj hv2).symm
    subst hvu
    exact ⟨k, le_refl k, by rw [hshape]; exact hv⟩
  | ofRevokeAll ck h =>
    have hshape := revoke_all_ok_shape h hv
    exact ⟨k + 1, by omega, by rw [hshape]⟩
  | ofLogout ck c1 c2 h =>
    obtain ⟨v, hvv, hshape⟩ := logout_ok_some_shape h
    have hvu : v = u := verify_access_ok_eq hvv
    subst hvu
    exact ⟨k, le_refl k, by rw [hshape]; exact hv⟩

/-- Along any successful trace the token version stays a decimal-printed
natural and never decreases. -/
theorem authReach_version {u u' : UserRec} (h : AuthReach u u') {k : Nat}
    (hv : u.token_version = some (natDec k)) :
    ∃ k', k ≤ k' ∧ u'.token_version = some (natDec k') := by
  induction h with
  | refl => exact ⟨k, le_refl k, hv⟩
  | tail hr hs ih =>
    obtain ⟨k1, hk1, hv1⟩ := ih
    obtain ⟨k2, hk2, hv2⟩ := authStep_version hs hv1
    exact ⟨k2, by omega, hv2⟩

/-!
## Theorems for the claims
-/

/-- C1 (amended): a token issued at any state of the user's history before a
successful `RevokeAll` carries a strictly older version snapshot than every
later state, so after the revoke (and any further successful operations) an
access token fails `AuthenticateAccess` with `VersionRevoked` (while the user
remains present and active), and a refresh token fails `Refresh` — with
`RefreshInvalidated` while the stored refresh state is still cleared, or with
`VersionRevoked` once a later login restored it. -/
theorem revoke_all_invalidates_prior_tokens
    (uI uPre uPost uFin : UserRec) (t : Claims) (ck : Option Claims) (kI : Nat)
    (hvI : uI.token_version = some (natDec kI))
    (hIssued : t.ver = some (effVer uI.token_version))
    (hPre : AuthReach uI uPre)
    (hRv : revoke_all ck (some uPre) = .ok uPost)
    (hFin : AuthReach uPost uFin) :
    (t.typ = "access" → uFin.is_active = true →
      verify_and_get_user_from_access (some t) (some uFin)
        = .error .versionRevoked)
    ∧ (t.typ = "refresh" → ∀ freshJti,
        refresh (some t) (some uFin) freshJti = .error .refreshInvalidated
        ∨ refresh (some t) (some uFin) freshJti = .error .versionRevoked) := by
  obtain ⟨kPre, hkPre, hvPre⟩ := authReach_version hPre hvI
  have hPostShape := revoke_all_ok_shape hRv hvPre
  have hvPost : uPost.token_version = some (natDec (kPre + 1)) := by
    rw [hPostShape]
  obtain ⟨kFin, hkFin, hvFin⟩ := authReach_version hFin hvPost
  have hcv : claimVer t.ver = natDec kI := by
    rw [hIssued, hvI]
    unfold claimVer effVer
    simp [natDec_ne_empty kI]
  have heffFin : effVer uFin.token_version = natDec kFin := by
    rw [hvFin]
    unfold effVer
    simp [natDec_ne_empty kFin]
  have hne : claimVer t.ver ≠ effVer uFin.token_version := by
    rw [hcv, heffFin]
    intro hcontra
    have := natDec_injective hcontra
    omega
  constructor
  · intro htyp hact
    unfold verify_and_get_user_from_access
    simp [htyp, hact, hne]
  · intro htyp freshJti
    unfold refresh
    rcases hh : uFin.refresh_token_hash with _ | sh
      <;> rcases hj : uFin.refresh_jti with _ | sj
      <;> simp [htyp, hh, hj, hne]

/-- C1 counterexample to the claim as stated: immediately after a successful
`RevokeAll`, presenting the previously issued refresh token to `Refresh`
fails with `RefreshInvalidated` (the stored refresh hash and jti are null,
checked before the version), not `VersionRevoked`. -/
theorem refresh_after_revoke_all_not_version_revoked :
    revoke_all (some aC1) (some uC1) = .ok uC1post
    ∧ refresh (some rC1) (some uC1post) 5 = .error .refreshInvalidated
    ∧ refresh (some rC1) (some uC1post) 5 ≠ .error .versionRevoked := by
  decide

/-- Witness for the amended C1 theorem at a concrete one-revoke history. -/
theorem revoke_all_invalidates_prior_tokens_witness :
    verify_and_get_user_from_access (some aC1) (some uC1post)
      = .error .versionRevoked
    ∧ (refresh (some rC1) (some uC1post) 5 = .error .refreshInvalidated
       ∨ refresh (some rC1) (some uC1post) 5 = .error .versionRevoked) := by
  have ha := revoke_all_invalidates_prior_tokens uC1 uC1 uC1post uC1post aC1
    (some aC1) 0 (by decide) (by decide) Relation.ReflTransGen.refl
    (by decide) Relation.ReflTransGen.refl
  have hr := revoke_all_invalidates_prior_tokens uC1 uC1 uC1post uC1post rC1
    (some aC1) 0 (by decide) (by decide) Relation.ReflTransGen.refl
    (by decide) Relation.ReflTransGen.refl
  exact ⟨ha.1 rfl rfl, hr.2 rfl 5⟩

/-- C2: a refresh token R that passes all of `refresh`'s checks rotates the
stored state; presenting R again fails with `RefreshReused` (claim jti no
longer matches the stored jti), the newly issued token succeeds on the next
`Refresh`, and after that use it too fails with `RefreshReused`. Freshness of
the uuid4-generated jtis is the explicit hypotheses `hFresh1`/`hFresh2`. -/
theorem refresh_rotates_and_old_token_single_use
    (u : UserRec) (r : Claims) (j n1 n2 : Nat)
    (hTyp : r.typ = "refresh")
    (hJti : r.jti = some j)
    (hHash : u.refresh_token_hash = some (pwd_context_hash r))
    (hSJti : u.refresh_jti = some j)
    (hVer : claimVer r.ver = effVer u.token_version)
    (hFresh1 : j ≠ n1) (hFresh2 : n1 ≠ n2) :
    refresh (some r) (some u) n1
      = .ok (rotated u n1, create_access_token u.id (effVer u.token_version),
             (create_refresh_token u.id (effVer u.token_version) n1).1)
    ∧ (∀ m, refresh (some r) (some (rotated u n1)) m = .error .refreshReused)
    ∧ refresh (some (create_refresh_token u.id (effVer u.token_version) n1).1)
        (some (rotated u n1)) n2
      = .ok (rotated (rotated u n1) n2,
             create_access_token u.id (effVer u.token_version),
             (create_refresh_token u.id (effVer u.token_version) n2).1)
    ∧ ∀ m, refresh (some (create_refresh_token u.id (effVer u.token_version) n1).1)
        (some (rotated (rotated u n1) n2)) m = .error .refreshReused := by
  have hrot_tv : (rotated u n1).token_version = u.token_version := rfl
  have hrot_id : (rotated u n1).id = u.id := rfl
  refine ⟨?_, ?_, ?_, ?_⟩
  · unfold refresh
    simp [hTyp, hHash, hSJti, hJti, hVer, pwd_context_verify, pwd_context_hash,
      rotated, create_refresh_token]
  · intro m
    unfold refresh
    simp only [rotated]
    simp [hTyp, hVer, hJti, hFresh1]
  · unfold refresh
    simp [rotated, create_refresh_token, create_access_token, claimVer,
      pwd_context_verify, pwd_context_hash]
  · intro m
    unfold refresh
    simp [rotated, create_refresh_token, claimVer, hFresh2, pwd_context_verify,
      pwd_context_hash, Ne.symm hFresh2]

/-- Witness for C2 at a concrete user and refresh token (jti 0, fresh jtis
1 and 2). -/
theorem refresh_rotates_and_old_token_single_use_witness :
    refresh (some rC1) (some uC1) 1
      = .ok (rotated uC1 1, create_access_token uC1.id (effVer uC1.token_version),
             (create_refresh_token uC1.id (effVer uC1.token_version) 1).1)
    ∧ refresh (some rC1) (some (rotated uC1 1)) 7 = .error .refreshReused
    ∧ refresh (some (create_refresh_token uC1.id (effVer uC1.token_version) 1).1)
        (some (rotated uC1 1)) 2
      = .ok (rotated (rotated uC1 1) 2,
             create_access_token uC1.id (effVer uC1.token_version),
             (create_refresh_token uC1.id (effVer uC1.token_version) 2).1)
    ∧ refresh (some (create_refresh_token uC1.id (effVer uC1.token_version) 1).1)
        (some (rotated (rotated uC1 1) 2)) 7 = .error .refreshReused := by
  have h := refresh_rotates_and_old_token_single_use uC1 rC1 0 1 2
    (by decide) (by decide) (by decide) (by decide) (by decide)
    (by decide) (by decide)
  exact ⟨h.1, h.2.1 7, h.2.2.1, h.2.2.2 7⟩

/-- C4 counterexample to the claim as stated: `login` succeeds for an
inactive user presenting the correct password — the route checks only
absence and password mismatch, never `is_active`. -/
theorem login_succeeds_for_inactive_user :
    login (some uC4inactive) "pw" 3
      = .ok (rotated uC4inactive 3,
             create_access_token "u2" "0",
             (create_refresh_token "u2" "0" 3).1)
    ∧ login (some uC4inactive) "pw" 3 ≠ .error .invalidCredentials := by
  constructor
  · unfold login
    simp [uC4inactive, pwd_context_verify, pwd_context_hash, rotated,
      create_refresh_token, effVer]
  · intro h
    simp [login, uC4inactive, pwd_context_verify, pwd_context_hash] at h

/-- C4 (amended): `login` fails with `InvalidCredentials` exactly when the
user is absent or the password does not verify against the stored hash (the
`is_active` flag is not consulted); on a matching password it succeeds and
unconditionally overwrites the stored refresh hash and jti with the freshly
minted refresh state. -/
theorem login_invalid_credentials_characterization (pw : String) (n : Nat) :
    login none pw n = .error .invalidCredentials
    ∧ ∀ u : UserRec, login (some u) pw n =
        (if pwd_context_verify pw u.password_hash then
          .ok (rotated u n, create_access_token u.id (effVer u.token_version),
               (create_refresh_token u.id (effVer u.token_version) n).1)
         else .error .invalidCredentials) := by
  refine ⟨rfl, fun u => ?_⟩
  unfold login
  rcases hb : pwd_context_verify pw u.password_hash with _ | _
  · simp [hb]
  · simp [hb, rotated, create_refresh_token]

/-- C8: every auth operation leaves the stored refresh hash and jti either
both set (register/login/refresh persist a fresh pair) or both null
(revoke-all and the best-effort branch of logout clear the pair). -/
theorem auth_ops_preserve_refresh_state_pairing
    (foE foI : Option UserRec) (pw newId : String) (n : Nat)
    (ck : Option Claims) (c1 c2 : Option String) :
    (match register foE pw newId n with
      | .ok (u, _, _) => refreshStatePaired u
      | _ => true) = true
    ∧ (match login foE pw n with
      | .ok (u, _, _) => refreshStatePaired u
      | _ => true) = true
    ∧ (match refresh ck foI n with
      | .ok (u, _, _) => refreshStatePaired u
      | _ => true) = true
    ∧ (match revoke_all ck foI with
      | .ok u => refreshStatePaired u
      | _ => true) = true
    ∧ (match logout ck foI c1 c2 with
      | .ok (some u) => refreshStatePaired u
      | _ => true) = true := by
  refine ⟨?_, ?_, ?_, ?_, ?_⟩
  · match foE with
    | some u => simp [register]
    | none => simp [register, refreshStatePaired]
  · match hres : login foE pw n with
    | .error e => simp
    | .ok (u1, a1, r1) =>
      obtain ⟨u0, hfo, hsh⟩ := login_ok_shape hres
      rw [hsh]
      simp [refreshStatePaired]
  · match hres : refresh ck foI n with
    | .error e => simp
    | .ok (u1, a1, r1) =>
      obtain ⟨u0, hfo, hsh⟩ := refresh_ok_shape hres
      rw [hsh]
      simp [refreshStatePaired]
  · match hres : revoke_all ck foI with
    | .error e => simp
    | .ok u1 =>
      unfold revoke_all at hres
      split at hres
      · exact absurd hres (by simp)
      · split at hres
        · exact absurd hres (by simp)
        · rw [← Except.ok.inj hres]
          simp [refreshStatePaired]
  · match hres : logout ck foI c1 c2 with
    | .error e => simp
    | .ok none => simp
    | .ok (some u1) =>
      obtain ⟨u0, hv, hsh⟩ := logout_ok_some_shape hres
      rw [hsh]
      simp [refreshStatePaired]

/-- C9 counterexample to the claim as stated: with the header and the cookie
both present and byte-equal but empty, `require_csrf` still raises
`CsrfMismatch`, because `not header` / `not cookie` treat the empty string as
missing (Python truthiness). -/
theorem require_csrf_rejects_equal_empty_tokens :
    require_csrf "POST" (some "") (some "") = .error .csrfMismatch
    ∧ (some "" : Option String).isSome = true
    ∧ ("" : String) = "" := by
  refine ⟨?_, rfl, rfl⟩
  unfold require_csrf
  simp [truthy]

/-- C9 (amended): `require_csrf` raises `CsrfMismatch` exactly when the
method is POST, PUT, PATCH or DELETE and the header- and cookie-carried
tokens are not both truthy (present and non-empty) and byte-equal; on every
other method, and whenever it does not raise, it returns successfully. -/
theorem require_csrf_characterization (method : String)
    (header cookie : Option String) :
    (require_csrf method header cookie = .error .csrfMismatch
      ↔ ((method = "POST" ∨ method = "PUT" ∨ method = "PATCH"
            ∨ method = "DELETE")
         ∧ ¬(truthy header = true ∧ truthy cookie = true ∧ header = cookie)))
    ∧ (require_csrf method header cookie = .ok ()
       ∨ require_csrf method header cookie = .error .csrfMismatch) := by
  by_cases hm : method = "POST" ∨ method = "PUT" ∨ method = "PATCH"
      ∨ method = "DELETE"
  · rcases hth : truthy header with _ | _
      <;> rcases htc : truthy cookie with _ | _
      <;> by_cases heq : header = cookie
      <;> simp [require_csrf, hm, hth, htc, heq]
      <;> simp_all
  · simp [require_csrf, hm]

/-- C10: a token with no `ver` claim is compared as the default string `"0"`
(`str(payload.get("ver", "0"))`), and a null stored `token_version` is
likewise read as `"0"` (`str(user.token_version or "0")`); so for an active,
present user such a token clears the version check in `AuthenticateAccess`
and in `Refresh` exactly when the user's effective stored version is `"0"`. -/
theorem missing_ver_claim_defaults_to_zero (tv : Option String) :
    claimVer none = "0"
    ∧ effVer none = "0"
    ∧ (verify_and_get_user_from_access (some tC10access) (some (uC10 tv))
          = .error .versionRevoked ↔ effVer tv ≠ "0")
    ∧ (verify_and_get_user_from_access (some tC10access) (some (uC10 tv))
          = .ok (uC10 tv) ↔ effVer tv = "0")
    ∧ ∀ n, (refresh (some tC10refresh) (some (uC10refresh tv)) n
          = .error .versionRevoked ↔ effVer tv ≠ "0") := by
  refine ⟨rfl, rfl, ?_, ?_, ?_⟩
  · unfold verify_and_get_user_from_access
    by_cases h0 : effVer tv = "0"
    · simp [uC10, tC10access, claimVer, h0]
    · simp [uC10, tC10access, claimVer, h0]
      intro hcontra
      exact absurd hcontra.symm h0
  · unfold verify_and_get_user_from_access
    by_cases h0 : effVer tv = "0"
    · simp [uC10, tC10access, claimVer, h0]
    · simp [uC10, tC10access, claimVer, h0]
      intro hcontra
      exact absurd hcontra.symm h0
  · intro n
    unfold refresh
    by_cases h0 : effVer tv = "0"
    · simp [uC10refresh, uC10, tC10refresh, claimVer, h0, pwd_context_verify,
        pwd_context_hash]
    · simp [uC10refresh, uC10, tC10refresh, claimVer, h0]
      intro hcontra
      exact absurd hcontra.symm h0

/-- C6 counterexample to the claim as stated: with `exclude_id = ""` (falsy
in Python, so `has_overlap` skips the `id != exclude_id` filter) an
overlapping entry whose identifier equals the given `exclude_id` is still
counted, where the claim requires it to be excluded. -/
theorem has_overlap_counts_entry_matching_empty_exclude :
    has_overlap [entryEmptyId] "u1" 5 15 (some "") = true
    ∧ has_overlap_claimed [entryEmptyId] "u1" 5 15 (some "") = false := by
  decide

/-- C6 (amended): `has_overlap` is true iff some entry of the user is closed
(`end_utc` non-null) with `existing.end > start` and `existing.start < end`
(half-open overlap, so touching endpoints do not count), excluding the entry
whose identifier equals `exclude_id` when a non-empty `exclude_id` is given
(an empty `exclude_id` is falsy and disables the exclusion filter). The
closed conjuncts are the spec's endpoint examples, in minutes. -/
theorem has_overlap_characterization :
    (∀ (db : List Entry) (uid : String) (s e : Int) (ex : Option String),
      has_overlap db uid s e ex = true
      ↔ ∃ t ∈ db, t.user_id = uid
          ∧ (∃ te, t.end_utc = some te ∧ s < te)
          ∧ t.start_utc < e
          ∧ ∀ x, ex = some x → x ≠ "" → t.id ≠ x)
    ∧ has_overlap [entryA] "u1" 660 720 none = false
    ∧ has_overlap [entryA] "u1" 659 690 none = true := by
  refine ⟨?_, by decide, by decide⟩
  intro db uid s e ex
  unfold has_overlap
  rw [List.any_eq_true]
  refine exists_congr fun t => and_congr_right fun _ => ?_
  cases hend : t.end_utc with
  | none => simp [hend]
  | some te =>
    cases hex : ex with
    | none =>
      simp [hend]
      tauto
    | some x =>
      by_cases hx : x = ""
      · subst hx
        simp [hend]
        tauto
      · simp [hend, hx]
        tauto

/-- Witness exercising the amended C6 theorem on the spec's overlapping
example, via the right-to-left direction. -/
theorem has_overlap_characterization_witness :
    has_overlap [entryA] "u1" 630 690 none = true := by
  refine (has_overlap_characterization.1 [entryA] "u1" 630 690 none).mpr
    ⟨entryA, by simp, rfl, ⟨660, rfl, by decide⟩, by decide, ?_⟩
  intro x hx
  simp at hx

/-- C3: with `end` omitted, a running entry of the same user makes the create
fail with `RunningConflict`, and a running entry of another user does not;
but when the same-user check passes the create does not succeed — it raises
`TypeError` (`_compute_seconds` subtracts a null `end_utc`), an HTTP 500,
where the spec promises a persisted running entry. -/
theorem create_running_conflict_and_crash :
    api_create_entry [runningSameUser] "u1" createRunningPayload "e9"
      = .error .runningConflict
    ∧ api_create_entry [runningOtherUser] "u1" createRunningPayload "e9"
        ≠ .error .runningConflict
    ∧ api_create_entry [runningOtherUser] "u1" createRunningPayload "e9"
        = .error .internalError
    ∧ api_create_entry [] "u1" createRunningPayload "e9"
        = .error .internalError := by
  decide

/-- C5: on a successful create with `end` provided the persisted duration is
`max(0, end − start)` (here 60; and `_compute_seconds` clamps a negative
difference to 0, never negative); but with `end` omitted no entry is
persisted with an unset/zero duration — `_compute_seconds(start, None)`
raises `TypeError`, an HTTP 500. -/
theorem create_duration_clamped_and_running_create_crashes :
    api_create_entry [] "u1" createClosedPayload "e1"
      = .ok ({ id := "e1", user_id := "u1", project_code := "p",
               activity := "a", start_utc := 100, end_utc := some 160,
               seconds := 60, notes := none },
             [{ id := "e1", user_id := "u1", project_code := "p",
                activity := "a", start_utc := 100, end_utc := some 160,
                seconds := 60, notes := none }])
    ∧ compute_seconds 100 40 = 0
    ∧ (∀ s e : Int, 0 ≤ compute_seconds s e)
    ∧ api_create_entry [] "u1"
        { createClosedPayload with end_utc := none } "e1"
      = .error .internalError := by
  refine ⟨by decide, by decide, ?_, by decide⟩
  intro s e
  unfold compute_seconds
  exact le_max_left 0 (e - s)

/-- C7: fields absent from a patch are left unchanged (on a closed and on a
running entry alike, so a null `end` survives a notes-only patch); patching
`end` from null to a timestamp recomputes the duration and clears running
status; but a patch carrying an explicit null `end` does not persist — the
`seconds` recomputation raises `TypeError` on the null operand, an HTTP 500,
where the claim promises the overwrite. -/
theorem update_patch_semantics_and_null_end_crash :
    api_update_entry [closedEntryC7] closedEntryC7 patchNotesOnly
      = .ok ({ closedEntryC7 with notes := some "n" },
             [{ closedEntryC7 with notes := some "n" }])
    ∧ api_update_entry [runningEntryC7] runningEntryC7 patchNotesOnly
        = .ok ({ runningEntryC7 with notes := some "n" },
               [{ runningEntryC7 with notes := some "n" }])
    ∧ api_update_entry [runningEntryC7] runningEntryC7 patchStopTimer
        = .ok ({ runningEntryC7 with end_utc := some 50, seconds := 50 },
               [{ runningEntryC7 with end_utc := some 50, seconds := 50 }])
    ∧ Entry.running { runningEntryC7 with end_utc := some 50, seconds := 50 }
        = false
    ∧ Entry.running runningEntryC7 = true
    ∧ api_update_entry [closedEntryC7] closedEntryC7 patchNullEnd
        = .error .internalError := by
  decide
